import Mathlib

set_option linter.unusedVariables false

/-!
Shallow embedding of the register-monitor teaching program
(`src/register_monitor.c`, `src/error_recovery.c`, `include/monitor.h`,
`src/test_functions.c`).

Modelling conventions:
* C `float` scalars (voltage, temperature, current) are embedded as `ℚ`;
  the threshold comparisons of the program are exact at every constant used.
* C `uint32_t` register words are embedded as `ℕ` (all arithmetic performed
  by the program on them is bounded well below `2^32`).
* The C enum `error_code_t` is an `int` in C, so error codes are embedded
  as `ℤ`, with the nine named constants `0..8`.
* `NULL` system pointers are embedded as `Option monitor_system_t`; each
  function that checks for NULL gets a wrapper on `Option` whose non-null
  branch is a `_body` function embedding the rest of the C body.
* The hidden `static` counter of `read_register` is threaded explicitly:
  functions that read registers take and return the counter.
* Console output, wall-clock timestamps and `delay_ms` sleeps are I/O and
  are dropped; everything else (state mutation, return values, control
  flow including `break`/`continue` placement) is embedded faithfully.
* The C array `registers[MAX_REGISTERS]` together with `num_registers` is
  embedded as a `List register_info_t` holding exactly the first
  `num_registers` entries; every loop of the program runs `i` from `0` to
  `num_registers - 1`, which is exactly a traversal of that list.
-/

namespace RegMon

/-- `monitor.h`: voltage thresholds (Volts). -/
def MIN_VOLTAGE : ℚ := 3.0

def MAX_VOLTAGE : ℚ := 3.6

def NOMINAL_VOLTAGE : ℚ := 3.3

/-- `monitor.h`: temperature thresholds (Celsius). -/
def TEMP_WARNING : ℚ := 75.0

def TEMP_CRITICAL : ℚ := 85.0

def TEMP_NORMAL : ℚ := 25.0

/-- `monitor.h`: current thresholds (Amperes). -/
def MIN_CURRENT : ℚ := 0.05

def MAX_CURRENT : ℚ := 2.0

def NOMINAL_CURRENT : ℚ := 0.5

def MAX_ERRORS : ℤ := 10

/-- `monitor.h`: `system_status_t` enum. -/
inductive system_status_t where
  | STATUS_NORMAL
  | STATUS_WARNING
  | STATUS_CRITICAL
  | STATUS_VOLTAGE_ERROR
  | STATUS_TEMPERATURE_ERROR
  | STATUS_CURRENT_ERROR
  | STATUS_COMMUNICATION_ERROR
deriving DecidableEq

export system_status_t (STATUS_NORMAL STATUS_WARNING STATUS_CRITICAL
  STATUS_VOLTAGE_ERROR STATUS_TEMPERATURE_ERROR STATUS_CURRENT_ERROR
  STATUS_COMMUNICATION_ERROR)

/-- `monitor.h`: `error_code_t` enum values (a C enum is an `int`). -/
def ERROR_NONE : ℤ := 0

def ERROR_VOLTAGE_LOW : ℤ := 1

def ERROR_VOLTAGE_HIGH : ℤ := 2

def ERROR_TEMPERATURE_HIGH : ℤ := 3

def ERROR_CURRENT_LOW : ℤ := 4

def ERROR_CURRENT_HIGH : ℤ := 5

def ERROR_COMMUNICATION : ℤ := 6

def ERROR_TIMEOUT : ℤ := 7

def ERROR_INVALID_DATA : ℤ := 8

/-- `monitor.h`: `register_info_t`. -/
structure register_info_t where
  address : ℕ
  value : ℕ
  expected_min : ℕ
  expected_max : ℕ
  is_valid : Bool
  name : String
deriving DecidableEq

/-- `monitor.h`: `monitor_system_t`; `num_registers` is `registers.length`. -/
structure monitor_system_t where
  voltage : ℚ
  temperature : ℚ
  current : ℚ
  status : system_status_t
  error_count : ℤ
  system_active : Bool
  registers : List register_info_t
deriving DecidableEq

/-- `register_monitor.c` line 355: `validate_voltage_range`. -/
def validate_voltage_range (voltage : ℚ) : Bool :=
  if voltage < MIN_VOLTAGE then false
  else if voltage > MAX_VOLTAGE then false
  else true

/-- `register_monitor.c` line 378: `validate_temperature_range`. -/
def validate_temperature_range (temperature : ℚ) : Bool :=
  if temperature > TEMP_CRITICAL then false
  else if temperature > TEMP_WARNING then true
  else true

/-- `register_monitor.c` line 403: `validate_current_range`. -/
def validate_current_range (current : ℚ) : Bool :=
  if current < 0 then false
  else if current < MIN_CURRENT then false
  else if current > MAX_CURRENT then false
  else true

/-- `register_monitor.c` line 434: `determine_system_status`, embedding the
`voltage_ok`/`current_ok` locals and the full branch structure, including
the final fallback branch. -/
def determine_system_status (voltage temperature current : ℚ) : system_status_t :=
  let voltage_ok := MIN_VOLTAGE ≤ voltage ∧ voltage ≤ MAX_VOLTAGE
  let current_ok := MIN_CURRENT ≤ current ∧ current ≤ MAX_CURRENT ∧ 0 ≤ current
  if TEMP_CRITICAL < temperature then STATUS_CRITICAL
  else if ¬ voltage_ok then STATUS_VOLTAGE_ERROR
  else if ¬ current_ok then
    if current < 0 then STATUS_CRITICAL
    else if current < MIN_CURRENT then STATUS_WARNING
    else STATUS_WARNING
  else if TEMP_WARNING < temperature then STATUS_WARNING
  else if voltage_ok ∧ current_ok ∧ temperature ≤ TEMP_WARNING then STATUS_NORMAL
  else STATUS_CRITICAL

/-- The status priority rule exactly as the specification words it
(spec section 4.2), for comparison with `determine_system_status`:
temperature-critical, then voltage error, then current out of range
(critical when negative, warning otherwise), then temperature warning,
else normal. -/
def status_priority_rule (voltage temperature current : ℚ) : system_status_t :=
  if TEMP_CRITICAL < temperature then STATUS_CRITICAL
  else if voltage < MIN_VOLTAGE ∨ MAX_VOLTAGE < voltage then STATUS_VOLTAGE_ERROR
  else if current < 0 then STATUS_CRITICAL
  else if current < MIN_CURRENT ∨ MAX_CURRENT < current then STATUS_WARNING
  else if TEMP_WARNING < temperature then STATUS_WARNING
  else STATUS_NORMAL

/-- `register_monitor.c` line 497: `check_critical_conditions`;
`none` embeds a NULL system pointer. -/
def check_critical_conditions : Option monitor_system_t → Bool
  | none => true
  | some s =>
    let critical_status := s.status = STATUS_CRITICAL
    let high_error_count := MAX_ERRORS ≤ s.error_count
    let system_inactive := s.system_active = false
    let critical_temperature := TEMP_CRITICAL < s.temperature
    let voltage_out_of_range := s.voltage < MIN_VOLTAGE ∨ MAX_VOLTAGE < s.voltage
    let current_negative := s.current < 0
    if critical_status ∨ high_error_count ∨ system_inactive ∨
        critical_temperature ∨ voltage_out_of_range ∨ current_negative then true
    else false

/-- `monitor_utils.c`: `read_register`; the hidden `static` counter is the
explicit first argument, returned incremented. The simulated value is
`0x12345678 + ((counter % 16) << 4)` after the increment; the address is
ignored, as in the C code. -/
def read_register (counter : ℕ) (address : ℕ) : ℕ × ℕ :=
  let c := counter + 1
  (0x12345678 + (c % 16) * 16, c)

/-- `test_functions.c` line 146: `validate_register`. -/
def validate_register (address value vmin vmax : ℕ) : Bool :=
  if value < vmin then false
  else if value > vmax then false
  else true

/-- The `for` loop of `scan_all_registers` (`register_monitor.c` lines
556-584): processes the registers from index `i` on, threading the read
counter; returns the updated registers, the final counter, the valid
count and the number of `error_count` increments.  The `else` branch of
the validation check ends in `continue`, so the `i == 0` critical-failure
`break` test only runs after the `then` branch (which has just set
`is_valid` to `true`); on a `break` the remaining registers are returned
untouched. -/
def scanLoop (i counter : ℕ) : List register_info_t → List register_info_t × ℕ × ℤ × ℤ
  | [] => ([], counter, 0, 0)
  | r :: rest =>
    let rr := read_register counter r.address
    let r1 : register_info_t := { r with value := rr.1 }
    if validate_register r1.address r1.value r1.expected_min r1.expected_max then
      let r2 : register_info_t := { r1 with is_valid := true }
      if i = 0 ∧ r2.is_valid = false then
        (r2 :: rest, rr.2, 1, 0)
      else
        let t := scanLoop (i + 1) rr.2 rest
        (r2 :: t.1, t.2.1, t.2.2.1 + 1, t.2.2.2)
    else
      let r2 : register_info_t := { r1 with is_valid := false }
      let t := scanLoop (i + 1) rr.2 rest
      (r2 :: t.1, t.2.1, t.2.2.1, t.2.2.2 + 1)

/-- `register_monitor.c` line 547: body of `scan_all_registers` after the
NULL check: returns (valid count, updated system, new read counter). -/
def scan_all_registers_body (s : monitor_system_t) (counter : ℕ) :
    ℤ × monitor_system_t × ℕ :=
  let t := scanLoop 0 counter s.registers
  (t.2.2.1, { s with registers := t.1, error_count := s.error_count + t.2.2.2 }, t.2.1)

/-- `register_monitor.c` line 547: `scan_all_registers`; a NULL system
returns `-1` and touches nothing. -/
def scan_all_registers (sys : Option monitor_system_t) (counter : ℕ) :
    ℤ × Option monitor_system_t × ℕ :=
  match sys with
  | none => (-1, none, counter)
  | some s =>
    let t := scan_all_registers_body s counter
    (t.1, some t.2.1, t.2.2)

/-- `register_monitor.c` line 645: `count_valid_registers`;
a NULL system counts 0. -/
def count_valid_registers : Option monitor_system_t → ℕ
  | none => 0
  | some s => (s.registers.filter (fun r => r.is_valid)).length

/-- The `for` loop of `update_all_registers` (`register_monitor.c` lines
675-695): re-reads and re-validates every register. -/
def updateLoop (counter : ℕ) : List register_info_t → List register_info_t × ℕ
  | [] => ([], counter)
  | r :: rest =>
    let rr := read_register counter r.address
    let r1 : register_info_t :=
      { r with value := rr.1,
               is_valid := validate_register r.address rr.1 r.expected_min r.expected_max }
    let t := updateLoop rr.2 rest
    (r1 :: t.1, t.2)

/-- `register_monitor.c` line 667: body of `update_all_registers` after the
NULL check: re-read and re-validate every register, then recompute
`status` from the current scalar readings. -/
def update_all_registers_body (s : monitor_system_t) (counter : ℕ) :
    monitor_system_t × ℕ :=
  let t := updateLoop counter s.registers
  ({ s with registers := t.1,
            status := determine_system_status s.voltage s.temperature s.current }, t.2)

/-- `register_monitor.c` line 667: `update_all_registers`; a NULL system is
a no-op. -/
def update_all_registers (sys : Option monitor_system_t) (counter : ℕ) :
    Option monitor_system_t × ℕ :=
  match sys with
  | none => (none, counter)
  | some s =>
    let t := update_all_registers_body s counter
    (some t.1, t.2)

/-- `register_monitor.c` line 790: `get_error_message`, the switch embedded
as an if-chain on the integer error code. -/
def get_error_message (error_code : ℤ) : String :=
  if error_code = ERROR_NONE then "No error"
  else if error_code = ERROR_VOLTAGE_LOW then "Voltage below minimum threshold"
  else if error_code = ERROR_VOLTAGE_HIGH then "Voltage above maximum threshold"
  else if error_code = ERROR_TEMPERATURE_HIGH then "Temperature exceeds critical threshold"
  else if error_code = ERROR_CURRENT_LOW then "Current consumption too low"
  else if error_code = ERROR_CURRENT_HIGH then "Current consumption too high"
  else if error_code = ERROR_COMMUNICATION then "Communication interface failure"
  else if error_code = ERROR_TIMEOUT then "Operation timeout"
  else if error_code = ERROR_INVALID_DATA then "Invalid or corrupted data"
  else "Unknown error"

/-- `register_monitor.c` line 821: body of `attempt_error_recovery` after
the NULL check.  Each corrective case mutates the scalar, then returns
`true` if the immediately following bound check passes; a failed check
falls through (`break`) to the final `return false`, keeping the
mutation.  The `ERROR_INVALID_DATA` case calls `update_all_registers`. -/
def attempt_error_recovery_body (s : monitor_system_t) (error_code : ℤ)
    (counter : ℕ) : Bool × monitor_system_t × ℕ :=
  if error_code = ERROR_VOLTAGE_LOW then
    let s1 := { s with voltage := MIN_VOLTAGE + 0.1 }
    if MIN_VOLTAGE ≤ s1.voltage then (true, s1, counter) else (false, s1, counter)
  else if error_code = ERROR_VOLTAGE_HIGH then
    let s1 := { s with voltage := MAX_VOLTAGE - 0.1 }
    if s1.voltage ≤ MAX_VOLTAGE then (true, s1, counter) else (false, s1, counter)
  else if error_code = ERROR_TEMPERATURE_HIGH then
    let s1 := { s with temperature := TEMP_CRITICAL - 5.0 }
    if s1.temperature ≤ TEMP_CRITICAL then (true, s1, counter) else (false, s1, counter)
  else if error_code = ERROR_CURRENT_LOW then
    let s1 := { s with current := MIN_CURRENT + 0.05 }
    if MIN_CURRENT ≤ s1.current then (true, s1, counter) else (false, s1, counter)
  else if error_code = ERROR_CURRENT_HIGH then
    let s1 := { s with current := MAX_CURRENT - 0.1 }
    if s1.current ≤ MAX_CURRENT then (true, s1, counter) else (false, s1, counter)
  else if error_code = ERROR_COMMUNICATION then (true, s, counter)
  else if error_code = ERROR_TIMEOUT then (true, s, counter)
  else if error_code = ERROR_INVALID_DATA then
    let t := update_all_registers_body s counter
    (true, t.1, t.2)
  else if error_code = ERROR_NONE then (true, s, counter)
  else (false, s, counter)

/-- `register_monitor.c` line 821: `attempt_error_recovery`; a NULL system
is always a failure. -/
def attempt_error_recovery (sys : Option monitor_system_t) (error_code : ℤ)
    (counter : ℕ) : Bool × Option monitor_system_t × ℕ :=
  match sys with
  | none => (false, none, counter)
  | some s =>
    let t := attempt_error_recovery_body s error_code counter
    (t.1, some t.2.1, t.2.2)

/-- `monitor_utils.c`: body of `simulate_hardware_failure` after the NULL
check; the five recognized codes push one scalar out of range and
increment `error_count`; the default case returns `false` untouched. -/
def simulate_hardware_failure_body (s : monitor_system_t) (error_type : ℤ) :
    Bool × monitor_system_t :=
  if error_type = ERROR_VOLTAGE_LOW then
    (true, { s with voltage := MIN_VOLTAGE - 0.1, error_count := s.error_count + 1 })
  else if error_type = ERROR_VOLTAGE_HIGH then
    (true, { s with voltage := MAX_VOLTAGE + 0.1, error_count := s.error_count + 1 })
  else if error_type = ERROR_TEMPERATURE_HIGH then
    (true, { s with temperature := TEMP_CRITICAL + 5.0, error_count := s.error_count + 1 })
  else if error_type = ERROR_CURRENT_LOW then
    (true, { s with current := MIN_CURRENT - 0.01, error_count := s.error_count + 1 })
  else if error_type = ERROR_CURRENT_HIGH then
    (true, { s with current := MAX_CURRENT + 0.1, error_count := s.error_count + 1 })
  else (false, s)

/-- `monitor_utils.c`: `simulate_hardware_failure`; NULL returns `false`. -/
def simulate_hardware_failure (sys : Option monitor_system_t) (error_type : ℤ) :
    Bool × Option monitor_system_t :=
  match sys with
  | none => (false, none)
  | some s =>
    let t := simulate_hardware_failure_body s error_type
    (t.1, some t.2)

/-- `monitor_utils.c`: `emergency_shutdown` on a non-NULL system:
deactivates the system and forces `status` to CRITICAL; the register
writes are simulated no-ops. -/
def emergency_shutdown (s : monitor_system_t) : monitor_system_t :=
  { s with system_active := false, status := STATUS_CRITICAL }

/-- `monitor_utils.c`: the four registers set up by `init_monitor_system`. -/
def init_registers : List register_info_t :=
  [ ⟨0x40000000, 0x12345678, 0x10000000, 0x20000000, true, "CTRL_REG"⟩,
    ⟨0x40000004, 0x12345679, 0x10000000, 0x20000000, true, "STATUS_REG"⟩,
    ⟨0x40000008, 0x1234567A, 0x10000000, 0x20000000, true, "DATA_REG"⟩,
    ⟨0x4000000C, 0x1234567B, 0x10000000, 0x20000000, true, "CONFIG_REG"⟩ ]

/-- `monitor_utils.c`: the system state produced by `init_monitor_system`
on a non-NULL system. -/
def init_monitor_system : monitor_system_t :=
  { voltage := NOMINAL_VOLTAGE
    temperature := TEMP_NORMAL
    current := NOMINAL_CURRENT
    status := STATUS_NORMAL
    error_count := 0
    system_active := true
    registers := init_registers }

/-- A concrete system whose control register (index 0) must fail
validation: as `init_monitor_system` but with register 0's
`expected_max` set to 0, so every simulated read value is out of range. -/
def bad_control_system : monitor_system_t :=
  { init_monitor_system with
    registers :=
      [ ⟨0x40000000, 0x12345678, 0x10000000, 0x00000000, true, "CTRL_REG"⟩,
        ⟨0x40000004, 0x12345679, 0x10000000, 0x20000000, true, "STATUS_REG"⟩,
        ⟨0x40000008, 0x1234567A, 0x10000000, 0x20000000, true, "DATA_REG"⟩,
        ⟨0x4000000C, 0x1234567B, 0x10000000, 0x20000000, true, "CONFIG_REG"⟩ ] }

/-- `error_recovery.c`: `error_log_entry_t`; the wall-clock timestamp is
I/O and is not modelled. -/
structure error_log_entry_t where
  error_code : ℤ
  retry_count : ℤ
  recovery_successful : Bool
  description : String
deriving DecidableEq

/-- `error_recovery.c`: `recovery_system_t` (the `system` back-pointer is
not part of the recovery state proper and is passed separately). -/
structure recovery_system_t where
  error_log : List error_log_entry_t
  log_count : ℕ
  total_errors : ℕ
  successful_recoveries : ℕ
  degraded_mode : Bool
  degradation_level : ℤ
deriving DecidableEq

def ERROR_LOG_SIZE : ℕ := 100

/-- `error_recovery.c` line 91: `log_recovery_error`: on a full log drop
the oldest entry, then append and bump the counters. -/
def log_recovery_error (rs : recovery_system_t) (error_code : ℤ)
    (description : String) (retry_count : ℤ) (recovery_successful : Bool) :
    recovery_system_t :=
  let rs1 :=
    if ERROR_LOG_SIZE ≤ rs.log_count then
      { rs with error_log := rs.error_log.drop 1, log_count := ERROR_LOG_SIZE - 1 }
    else rs
  { rs1 with
    error_log := rs1.error_log ++
      [⟨error_code, retry_count, recovery_successful, description⟩],
    log_count := rs1.log_count + 1,
    total_errors := rs1.total_errors + 1,
    successful_recoveries :=
      rs1.successful_recoveries + (if recovery_successful then 1 else 0) }

/-- `error_recovery.c` lines 209-213: the voltage penalty of
`graceful_degradation`. -/
def voltage_penalty (s : monitor_system_t) : ℤ :=
  if s.voltage < MIN_VOLTAGE ∨ MAX_VOLTAGE < s.voltage then 30
  else if s.voltage < MIN_VOLTAGE * 1.1 ∨ MAX_VOLTAGE * 0.9 < s.voltage then 15
  else 0

/-- `error_recovery.c` lines 216-220: the temperature penalty of
`graceful_degradation`. -/
def temperature_penalty (s : monitor_system_t) : ℤ :=
  if TEMP_CRITICAL < s.temperature then 40
  else if TEMP_WARNING < s.temperature then 20
  else 0

/-- `error_recovery.c` lines 223-225: the current penalty of
`graceful_degradation`. -/
def current_penalty (s : monitor_system_t) : ℤ :=
  if s.current < MIN_CURRENT ∨ MAX_CURRENT < s.current then 25
  else 0

/-- `error_recovery.c` line 193: `graceful_degradation` on a non-NULL
system: computes the clamped health score, derives the degradation
level, and on a level change stores it (with `degraded_mode`) and logs
the transition; when the level is unchanged nothing is written. -/
def graceful_degradation (s : monitor_system_t) (rs : recovery_system_t) :
    recovery_system_t :=
  let error_penalty : ℤ := s.error_count * 10
  let score0 : ℤ :=
    100 - (error_penalty + voltage_penalty s + temperature_penalty s + current_penalty s)
  let health_score : ℤ := if score0 < 0 then 0 else score0
  let new_degradation_level : ℤ :=
    if 80 ≤ health_score then 0
    else if 60 ≤ health_score then 1
    else if 30 ≤ health_score then 2
    else 3
  if new_degradation_level ≠ rs.degradation_level then
    let rs1 := { rs with degradation_level := new_degradation_level,
                         degraded_mode := 0 < new_degradation_level }
    if new_degradation_level = 0 then
      log_recovery_error rs1 ERROR_NONE "System returned to normal operation" 0 true
    else if new_degradation_level = 1 then
      log_recovery_error rs1 ERROR_NONE "Minor degradation activated" 0 true
    else if new_degradation_level = 2 then
      log_recovery_error rs1 ERROR_NONE "Major degradation activated" 0 true
    else
      log_recovery_error rs1 ERROR_NONE "Critical degradation activated" 0 true
  else rs

/-- The degradation rule exactly as the specification words it (spec
section 4.5): weighted health score `100 - 10*error_count` minus the
three penalties, clamped at 0. -/
def health_score_rule (s : monitor_system_t) : ℤ :=
  max 0 (100 - 10 * s.error_count - voltage_penalty s - temperature_penalty s -
    current_penalty s)

/-- The level thresholds exactly as the specification words them (spec
section 4.5): score ≥ 80 → 0, ≥ 60 → 1, ≥ 30 → 2, else 3. -/
def degradation_level_rule (score : ℤ) : ℤ :=
  if 80 ≤ score then 0
  else if 60 ≤ score then 1
  else if 30 ≤ score then 2
  else 3

/-- `error_recovery.c` line 62: the recovery state set up by
`init_recovery_system` on a non-NULL system. -/
def init_recovery_state : recovery_system_t :=
  { error_log := []
    log_count := 0
    total_errors := 0
    successful_recoveries := 0
    degraded_mode := false
    degradation_level := 0 }

end RegMon

namespace RegMon

/-- Helper: `log_recovery_error` never changes the stored degradation
level or mode. -/
theorem log_recovery_error_keeps_level (rs : recovery_system_t) (e : ℤ)
    (d : String) (rc : ℤ) (ok : Bool) :
    (log_recovery_error rs e d rc ok).degradation_level = rs.degradation_level ∧
    (log_recovery_error rs e d rc ok).degraded_mode = rs.degraded_mode := by
  unfold log_recovery_error
  dsimp only
  split_ifs <;> exact ⟨rfl, rfl⟩

/-- Helper: the scan loop of `scan_all_registers` always advances the
read counter once per register in the list: the `break` on a failing
control register is unreachable (the `continue` in the failure branch
skips it, and in the success branch `is_valid` has just been set true),
so the loop always traverses every register. -/
theorem scanLoop_reads_every_register (regs : List register_info_t) :
    ∀ i c, (scanLoop i c regs).2.1 = c + regs.length := by
  induction regs with
  | nil => intro i c; simp [scanLoop]
  | cons r rest ih =>
    intro i c
    unfold scanLoop
    dsimp only
    split_ifs with h1 h2
    · exact absurd h2.2 (by simp)
    · have h := ih (i + 1) (c + 1)
      simp only [read_register, List.length_cons]
      omega
    · have h := ih (i + 1) (c + 1)
      simp only [read_register, List.length_cons]
      omega

/-- Helper: the scan loop's `error_count` increment is non-negative. -/
theorem scanLoop_err_nonneg (regs : List register_info_t) :
    ∀ i c, 0 ≤ (scanLoop i c regs).2.2.2 := by
  induction regs with
  | nil => intro i c; simp [scanLoop]
  | cons r rest ih =>
    intro i c
    unfold scanLoop
    dsimp only
    split_ifs with h1 h2
    · norm_num
    · have h := ih (i + 1) (c + 1)
      simp only [read_register]
      omega
    · have h := ih (i + 1) (c + 1)
      simp only [read_register]
      omega

/-- C1: `determine_system_status` implements exactly the spec's priority
rule (temperature-critical, then voltage error, then current out of
range — critical when negative, warning otherwise — then temperature
warning, else normal), and takes the four documented values on the
spec's four sample inputs. -/
theorem determine_system_status_matches_priority_rule :
    (∀ v t c : ℚ, determine_system_status v t c = status_priority_rule v t c) ∧
    determine_system_status 3.3 25 0.5 = STATUS_NORMAL ∧
    determine_system_status 2.5 25 0.5 = STATUS_VOLTAGE_ERROR ∧
    determine_system_status 3.3 80 0.5 = STATUS_WARNING ∧
    determine_system_status 3.3 90 0.5 = STATUS_CRITICAL := by
  refine ⟨?_, ?_, ?_, ?_, ?_⟩
  · intro v t c
    unfold determine_system_status status_priority_rule
    dsimp only
    rcases lt_or_le TEMP_CRITICAL t with hA | hA
    · rw [if_pos hA, if_pos hA]
    · rw [if_neg (not_lt.mpr hA), if_neg (not_lt.mpr hA)]
      by_cases hV : MIN_VOLTAGE ≤ v ∧ v ≤ MAX_VOLTAGE
      · have hV' : ¬(v < MIN_VOLTAGE ∨ MAX_VOLTAGE < v) := by
          rintro (h | h) <;> linarith [hV.1, hV.2]
        rw [if_neg (not_not_intro hV), if_neg hV']
        by_cases hC : MIN_CURRENT ≤ c ∧ c ≤ MAX_CURRENT ∧ 0 ≤ c
        · have hc0 : ¬ c < 0 := not_lt.mpr hC.2.2
          have hcr : ¬(c < MIN_CURRENT ∨ MAX_CURRENT < c) := by
            rintro (h | h) <;> linarith [hC.1, hC.2.1]
          rw [if_neg (not_not_intro hC), if_neg hc0, if_neg hcr]
          rcases lt_or_le TEMP_WARNING t with hW | hW
          · rw [if_pos hW, if_pos hW]
          · rw [if_neg (not_lt.mpr hW), if_neg (not_lt.mpr hW),
              if_pos ⟨hV, hC, hW⟩]
        · rw [if_pos hC]
          rcases lt_or_le c 0 with h0 | h0
          · rw [if_pos h0, if_pos h0]
          · rw [if_neg (not_lt.mpr h0), if_neg (not_lt.mpr h0)]
            by_cases hm : c < MIN_CURRENT
            · rw [if_pos hm, if_pos (Or.inl hm)]
            · have hMx : MAX_CURRENT < c := by
                by_contra hMx
                exact hC ⟨not_lt.mp hm, not_lt.mp hMx, h0⟩
              rw [if_neg hm, if_pos (Or.inr hMx)]
      · have hV' : v < MIN_VOLTAGE ∨ MAX_VOLTAGE < v := by
          by_contra h
          push_neg at h
          exact hV ⟨h.1, h.2⟩
        rw [if_pos hV, if_pos hV']
  · unfold determine_system_status
    norm_num [MIN_VOLTAGE, MAX_VOLTAGE, MIN_CURRENT, MAX_CURRENT, TEMP_WARNING, TEMP_CRITICAL]
  · unfold determine_system_status
    norm_num [MIN_VOLTAGE, MAX_VOLTAGE, MIN_CURRENT, MAX_CURRENT, TEMP_WARNING, TEMP_CRITICAL]
  · unfold determine_system_status
    norm_num [MIN_VOLTAGE, MAX_VOLTAGE, MIN_CURRENT, MAX_CURRENT, TEMP_WARNING, TEMP_CRITICAL]
  · unfold determine_system_status
    norm_num [MIN_VOLTAGE, MAX_VOLTAGE, MIN_CURRENT, MAX_CURRENT, TEMP_WARNING, TEMP_CRITICAL]

/-- C3: `validate_voltage_range v` is true exactly when
`MIN_VOLTAGE ≤ v ≤ MAX_VOLTAGE`; in particular both boundary values
pass. -/
theorem validate_voltage_range_boundary_inclusive :
    (∀ v : ℚ, validate_voltage_range v = decide (MIN_VOLTAGE ≤ v ∧ v ≤ MAX_VOLTAGE)) ∧
    validate_voltage_range MIN_VOLTAGE = true ∧
    validate_voltage_range MAX_VOLTAGE = true := by
  refine ⟨?_, ?_, ?_⟩
  · intro v
    unfold validate_voltage_range
    split_ifs with h1 h2
    · have h : ¬(MIN_VOLTAGE ≤ v ∧ v ≤ MAX_VOLTAGE) := fun h => absurd h.1 (not_le.mpr h1)
      simp [h]
    · have h : ¬(MIN_VOLTAGE ≤ v ∧ v ≤ MAX_VOLTAGE) := fun h => absurd h.2 (not_le.mpr h2)
      simp [h]
    · have h : MIN_VOLTAGE ≤ v ∧ v ≤ MAX_VOLTAGE := ⟨not_lt.mp h1, not_lt.mp h2⟩
      simp [h]
  · unfold validate_voltage_range
    norm_num [MIN_VOLTAGE, MAX_VOLTAGE]
  · unfold validate_voltage_range
    norm_num [MIN_VOLTAGE, MAX_VOLTAGE]

/-- C4: `validate_temperature_range t` is false exactly when
`t > TEMP_CRITICAL`; it is true at `TEMP_CRITICAL`, at `TEMP_WARNING`,
and at arbitrarily negative temperatures (no lower bound). -/
theorem validate_temperature_range_no_lower_bound :
    (∀ t : ℚ, validate_temperature_range t = decide (t ≤ TEMP_CRITICAL)) ∧
    validate_temperature_range TEMP_CRITICAL = true ∧
    validate_temperature_range TEMP_WARNING = true ∧
    validate_temperature_range (-1000) = true := by
  refine ⟨?_, ?_, ?_, ?_⟩
  · intro t
    unfold validate_temperature_range
    split_ifs with h1 h2
    · simp [not_le.mpr h1]
    · simp [not_lt.mp h1]
    · simp [not_lt.mp h1]
  · unfold validate_temperature_range
    norm_num [TEMP_WARNING, TEMP_CRITICAL]
  · unfold validate_temperature_range
    norm_num [TEMP_WARNING, TEMP_CRITICAL]
  · unfold validate_temperature_range
    norm_num [TEMP_WARNING, TEMP_CRITICAL]

/-- C5: a NULL (`none`) system is uniformly the failure/critical
outcome: `check_critical_conditions` reports critical,
`scan_all_registers` returns `-1`, `count_valid_registers` returns `0`,
and `attempt_error_recovery` fails for every error code. -/
theorem null_system_fail_safe :
    check_critical_conditions none = true ∧
    (∀ counter : ℕ, (scan_all_registers none counter).1 = -1) ∧
    count_valid_registers none = 0 ∧
    (∀ (code : ℤ) (counter : ℕ), (attempt_error_recovery none code counter).1 = false) :=
  ⟨rfl, fun _ => rfl, rfl, fun _ _ => rfl⟩

/-- C6: `get_error_message` returns a non-empty string for every integer
error code, and every code outside the nine named enum values
(`0 ≤ code ≤ 8`) gets the fixed string "Unknown error". -/
theorem get_error_message_total :
    ∀ code : ℤ, get_error_message code ≠ "" ∧
      ((0 ≤ code ∧ code ≤ 8) ∨ get_error_message code = "Unknown error") := by
  intro code
  unfold get_error_message
  simp only [ERROR_NONE, ERROR_VOLTAGE_LOW, ERROR_VOLTAGE_HIGH, ERROR_TEMPERATURE_HIGH,
    ERROR_CURRENT_LOW, ERROR_CURRENT_HIGH, ERROR_COMMUNICATION, ERROR_TIMEOUT,
    ERROR_INVALID_DATA]
  split_ifs <;>
    exact ⟨by decide, by first | (left; omega) | (right; rfl)⟩

end RegMon

namespace RegMon

/-- C2 (code-bug evidence): the scan never aborts early.  In general the
read counter advances once per register, so every register is read; and
on the concrete system `bad_control_system`, whose control register
(index 0) fails validation, the remaining three registers are still read
and validated: the scan returns valid count 3, performs 4 reads, and
leaves validity flags [false, true, true, true]. -/
theorem scan_continues_after_control_register_failure :
    (∀ (s : monitor_system_t) (counter : ℕ),
      (scan_all_registers (some s) counter).2.2 = counter + s.registers.length) ∧
    (scan_all_registers (some bad_control_system) 0).1 = 3 ∧
    (scan_all_registers (some bad_control_system) 0).2.2 = 4 ∧
    Option.map (fun s => s.registers.map register_info_t.is_valid)
      (scan_all_registers (some bad_control_system) 0).2.1 =
      some [false, true, true, true] := by
  refine ⟨?_, by decide, by decide, by decide⟩
  intro s counter
  exact scanLoop_reads_every_register s.registers 0 counter

/-- C7: `graceful_degradation` stores the degradation level determined
by the clamped health score and the spec's thresholds, and when the
computed level equals the stored one the recovery state is returned
unchanged. -/
theorem graceful_degradation_matches_level_rule :
    ∀ (s : monitor_system_t) (rs : recovery_system_t),
      (graceful_degradation s rs).degradation_level =
        degradation_level_rule (health_score_rule s) ∧
      (degradation_level_rule (health_score_rule s) = rs.degradation_level →
        graceful_degradation s rs = rs) := by
  intro s rs
  have hscore : (if (100 - (s.error_count * 10 + voltage_penalty s + temperature_penalty s +
        current_penalty s) : ℤ) < 0 then (0 : ℤ)
      else 100 - (s.error_count * 10 + voltage_penalty s + temperature_penalty s +
        current_penalty s)) = health_score_rule s := by
    unfold health_score_rule
    split_ifs with h <;> omega
  unfold graceful_degradation
  dsimp only
  rw [hscore]
  have hlev : (if 80 ≤ health_score_rule s then (0 : ℤ)
      else if 60 ≤ health_score_rule s then 1
      else if 30 ≤ health_score_rule s then 2
      else 3) = degradation_level_rule (health_score_rule s) := rfl
  rw [hlev]
  by_cases heq : degradation_level_rule (health_score_rule s) = rs.degradation_level
  · rw [if_neg (not_not_intro heq)]
    exact ⟨heq.symm, fun _ => rfl⟩
  · rw [if_pos heq]
    refine ⟨?_, fun h => absurd h heq⟩
    split_ifs <;> rw [(log_recovery_error_keeps_level _ _ _ _ _).1]

/-- Witness for C7 at the freshly initialized system and recovery state:
the computed level is 0, equal to the stored level, and the call is a
no-op. -/
theorem graceful_degradation_matches_level_rule_witness :
    degradation_level_rule (health_score_rule init_monitor_system) =
      init_recovery_state.degradation_level ∧
    graceful_degradation init_monitor_system init_recovery_state =
      init_recovery_state := by
  have h : degradation_level_rule (health_score_rule init_monitor_system) =
      init_recovery_state.degradation_level := by
    norm_num [degradation_level_rule, health_score_rule, voltage_penalty,
      temperature_penalty, current_penalty, init_monitor_system, init_recovery_state,
      MIN_VOLTAGE, MAX_VOLTAGE, MIN_CURRENT, MAX_CURRENT, TEMP_WARNING, TEMP_CRITICAL,
      NOMINAL_VOLTAGE, NOMINAL_CURRENT, TEMP_NORMAL, max_def]
  exact ⟨h,
    (graceful_degradation_matches_level_rule init_monitor_system init_recovery_state).2 h⟩

/-- C8: `error_count` is monotonically non-decreasing across every
operation except re-initialization: the scan and the simulated hardware
failure only add to it, register updates, recovery attempts and the
emergency shutdown leave it unchanged, and re-initialization resets it
to 0. -/
theorem error_count_monotone :
    (∀ (s : monitor_system_t) (counter : ℕ),
      s.error_count ≤ (scan_all_registers_body s counter).2.1.error_count) ∧
    (∀ (s : monitor_system_t) (code : ℤ),
      s.error_count ≤ (simulate_hardware_failure_body s code).2.error_count) ∧
    (∀ (s : monitor_system_t) (counter : ℕ),
      (update_all_registers_body s counter).1.error_count = s.error_count) ∧
    (∀ (s : monitor_system_t) (code : ℤ) (counter : ℕ),
      (attempt_error_recovery_body s code counter).2.1.error_count = s.error_count) ∧
    (∀ s : monitor_system_t, (emergency_shutdown s).error_count = s.error_count) ∧
    init_monitor_system.error_count = 0 := by
  refine ⟨?_, ?_, fun s counter => rfl, ?_, fun s => rfl, rfl⟩
  · intro s counter
    have h := scanLoop_err_nonneg s.registers 0 counter
    show s.error_count ≤ s.error_count + (scanLoop 0 counter s.registers).2.2.2
    omega
  · intro s code
    unfold simulate_hardware_failure_body
    split_ifs <;> simp
  · intro s code counter
    unfold attempt_error_recovery_body
    dsimp only
    split_ifs <;> rfl

/-- C9 counterexample: `emergency_shutdown` also writes the status
field: on the freshly initialized system (status NORMAL) it forces
CRITICAL, so `update_all_registers` is not the only status-writing
operation besides initialization. -/
theorem emergency_shutdown_writes_status :
    (emergency_shutdown init_monitor_system).status = STATUS_CRITICAL ∧
    init_monitor_system.status = STATUS_NORMAL ∧
    (emergency_shutdown init_monitor_system).status ≠ init_monitor_system.status :=
  ⟨rfl, rfl, by decide⟩

/-- C9 (amended): `update_all_registers` recomputes the status from the
current scalar readings; the only other status-writing operations are
`emergency_shutdown` (which forces CRITICAL) and `attempt_error_recovery`
with `ERROR_INVALID_DATA` (which runs `update_all_registers`); the scan,
the simulated hardware failure and every other recovery code leave the
status unchanged. -/
theorem status_write_sites :
    (∀ (s : monitor_system_t) (counter : ℕ),
      (update_all_registers_body s counter).1.status =
        determine_system_status s.voltage s.temperature s.current) ∧
    (∀ s : monitor_system_t, (emergency_shutdown s).status = STATUS_CRITICAL) ∧
    (∀ (s : monitor_system_t) (counter : ℕ),
      (scan_all_registers_body s counter).2.1.status = s.status) ∧
    (∀ (s : monitor_system_t) (code : ℤ),
      (simulate_hardware_failure_body s code).2.status = s.status) ∧
    (∀ (s : monitor_system_t) (code : ℤ) (counter : ℕ), code ≠ ERROR_INVALID_DATA →
      (attempt_error_recovery_body s code counter).2.1.status = s.status) ∧
    (∀ (s : monitor_system_t) (counter : ℕ),
      (attempt_error_recovery_body s ERROR_INVALID_DATA counter).2.1.status =
        determine_system_status s.voltage s.temperature s.current) := by
  refine ⟨?_, ?_, ?_, ?_, ?_, ?_⟩
  · intro s counter
    unfold update_all_registers_body
    dsimp only
  · intro s
    unfold emergency_shutdown
    dsimp only
  · intro s counter
    unfold scan_all_registers_body
    dsimp only
  · intro s code
    unfold simulate_hardware_failure_body
    split_ifs <;> rfl
  · intro s code counter h8
    unfold attempt_error_recovery_body
    dsimp only
    split_ifs <;> first
      | rfl
      | exact absurd ‹code = ERROR_INVALID_DATA› h8
  · intro s counter
    unfold attempt_error_recovery_body update_all_registers_body
    norm_num [ERROR_VOLTAGE_LOW, ERROR_VOLTAGE_HIGH, ERROR_TEMPERATURE_HIGH,
      ERROR_CURRENT_LOW, ERROR_CURRENT_HIGH, ERROR_COMMUNICATION, ERROR_TIMEOUT,
      ERROR_INVALID_DATA, ERROR_NONE]

/-- Witness for C9 at a concrete non-`ERROR_INVALID_DATA` code: recovery
from `ERROR_VOLTAGE_LOW` (code 1) on the initialized system leaves the
status unchanged. -/
theorem status_write_sites_witness :
    (1 : ℤ) ≠ ERROR_INVALID_DATA ∧
    (attempt_error_recovery_body init_monitor_system 1 0).2.1.status =
      init_monitor_system.status :=
  ⟨by norm_num [ERROR_INVALID_DATA],
   status_write_sites.2.2.2.2.1 init_monitor_system 1 0
     (by norm_num [ERROR_INVALID_DATA])⟩

/-- C10: on a non-null system, `attempt_error_recovery` reports success
exactly for the nine named error codes `0..8` — every corrective
mutation satisfies the bound check that follows it — and reports failure
exactly for integer codes outside the enum. -/
theorem attempt_error_recovery_succeeds_on_enum :
    ∀ (s : monitor_system_t) (counter : ℕ) (code : ℤ),
      ((attempt_error_recovery (some s) code counter).1 = true ∨
        code < 0 ∨ 8 < code) ∧
      ((attempt_error_recovery (some s) code counter).1 = false ∨
        (0 ≤ code ∧ code ≤ 8)) := by
  intro s counter code
  unfold attempt_error_recovery attempt_error_recovery_body
  dsimp only
  split_ifs
  all_goals constructor
  all_goals first
    | (left; rfl)
    | (right; simp only [ERROR_NONE, ERROR_VOLTAGE_LOW, ERROR_VOLTAGE_HIGH,
        ERROR_TEMPERATURE_HIGH, ERROR_CURRENT_LOW, ERROR_CURRENT_HIGH,
        ERROR_COMMUNICATION, ERROR_TIMEOUT, ERROR_INVALID_DATA] at *; omega)
    | (exfalso; norm_num [MIN_VOLTAGE, MAX_VOLTAGE, MIN_CURRENT, MAX_CURRENT,
        TEMP_CRITICAL] at *)

end RegMon
